import Mathlib

/-!
Verification development for the Instagram automation tool (app.py).

Strings are modelled as lists of characters so that every operation is a
structural, kernel-computable function.  Python string primitives used by the
source (startswith, in, replace, join, str(int)) are given faithful
executable counterparts below.  Network effects (requests.head, requests.post
against the Graph API) are modelled by an oracle `Net`; every API function
additionally returns the ordered trace of outbound requests it issued, so
that properties about which calls happen (and in which order) are statable.
-/

namespace App

/-- Character-list strings: the model of Python `str` used throughout. -/
abbrev Str := List Char

/-- Converts a Lean string literal to the model type. -/
def str (s : String) : Str := s.data

/-- Fuel-driven worker for `strReplace`; fuel is the length of the subject
string, which bounds the recursion depth. -/
def strReplaceFuel : Nat → Str → Str → Str → Str
  | 0, s, _, _ => s
  | _ + 1, [], _, _ => []
  | fuel + 1, c :: rest, pat, rep =>
    if pat.isPrefixOf (c :: rest) && !pat.isEmpty then
      rep ++ strReplaceFuel fuel ((c :: rest).drop pat.length) pat rep
    else
      c :: strReplaceFuel fuel rest pat rep

/-- Python `s.replace(pat, rep)`: replace every non-overlapping occurrence,
left to right. -/
def strReplace (s pat rep : Str) : Str := strReplaceFuel s.length s pat rep

/-- Digit-string worker for `natToStr` (fuel bounds the number of digits). -/
def natToStrAux : Nat → Nat → Str
  | 0, _ => []
  | fuel + 1, n =>
    if n < 10 then [Char.ofNat (48 + n)]
    else natToStrAux fuel (n / 10) ++ [Char.ofNat (48 + n % 10)]

/-- Python `str(n)` for a non-negative integer (decimal digits). -/
def natToStr (n : Nat) : Str := natToStrAux (n + 1) n

/-- Non-empty and consisting solely of decimal digits. -/
def isDigits (s : Str) : Bool := !s.isEmpty && s.all Char.isDigit

/-- Python `sub in s`: substring containment. -/
def strContains (s sub : Str) : Bool :=
  if sub.isPrefixOf s then true
  else
    match s with
    | [] => false
    | _ :: t => strContains t sub

/-- The pattern `test_<accountId>_<digits>` claimed by the spec for synthetic
ids returned on simulation accounts. -/
def matchesTestPattern (aid s : Str) : Bool :=
  let pre := str "test_" ++ aid ++ str "_"
  pre.isPrefixOf s && isDigits (s.drop pre.length)

/-- The pattern the code actually produces: `test_<kind>_<accountId>_<digits>`
with kind one of `post`, `story`, `carousel`. -/
def matchesTestKindPattern (kind aid s : Str) : Bool :=
  let pre := str "test_" ++ kind ++ str "_" ++ aid ++ str "_"
  pre.isPrefixOf s && isDigits (s.drop pre.length)

/-- Interactive story elements parsed from `Post.story_elements`
(`text_overlay`, `poll`, `mentions`, `link` keys of the JSON object). -/
structure StoryElements where
  textOverlay : Option (Str × Str × Str) := none
  poll : Option (Str × List Str) := none
  mentions : Option (List Str) := none
  link : Option Str := none
deriving DecidableEq

/-- An outbound request issued by `InstagramAPI`.  `headCheck` is the local
`requests.head` reachability probe in `upload_media`; all other
constructors are Graph API calls. -/
inductive Req where
  | headCheck (url : Str)
  | createFeed (accountId url caption : Str)
  | createStory (accountId url : Str) (elements : Option StoryElements)
  | createChild (accountId url : Str)
  | createParent (accountId : Str) (children : Str) (caption : Str)
  | publish (accountId creationId : Str)
deriving DecidableEq

/-- True for every request that is a Graph API call (everything except the
local reachability probe). -/
def isGraphReq : Req → Bool
  | .headCheck _ => false
  | _ => true

def isChildReq : Req → Bool
  | .createChild _ _ => true
  | _ => false

def isParentReq : Req → Bool
  | .createParent _ _ _ => true
  | _ => false

/-- Outcome of a Graph API POST, at the abstraction level the source
branches on: HTTP 200 with an `id`, HTTP 200 whose body lacks an `id`
(the extracted envelope message is carried), a non-200 response (the
message the source extracts from the envelope, or `HTTP <code>`), or a
`requests` exception with its text. -/
inductive Resp where
  | ok (id : Str)
  | noId (msg : Str)
  | httpErr (msg : Str)
  | netErr (msg : Str)
deriving DecidableEq

/-- The network oracle: `head` models `requests.head url` (status code or a
raised `RequestException` text); `graph` models the Graph API calls. -/
structure Net where
  head : Str → Except Str Nat
  graph : Req → Resp

/-- The dictionaries returned by the `InstagramAPI` methods: an optional
`id` key, an optional `error` key and an optional `message` key. -/
structure ApiDict where
  id : Option Str := none
  error : Option Str := none
  message : Option Str := none
deriving DecidableEq

/-- A `{"error": msg}` dictionary. -/
def mkErr (msg : Str) : ApiDict := { error := some msg }

/-- Python `access_token or self.default_token` (empty and `None` are falsy). -/
def resolveToken : Option Str → Option Str → Option Str
  | some t, d => if t.isEmpty then d else some t
  | none, d => d

/-- Python `token and token.startswith('test')`: the simulation-account
sentinel test. -/
def isTestToken : Option Str → Bool
  | some t => !t.isEmpty && (str "test").isPrefixOf t
  | none => false

/-- `InstagramAPI.upload_media`: validates the image URL, probes its
reachability, then creates a feed container.  Returns the result dictionary
and the trace of requests issued. -/
def uploadMedia (net : Net) (accountId imageUrl caption : Str)
    (accessToken defaultToken : Option Str) : ApiDict × List Req :=
  let _token := resolveToken accessToken defaultToken
  if imageUrl.isEmpty then
    (mkErr (str "Image URL is required"), [])
  else if !((str "http://").isPrefixOf imageUrl || (str "https://").isPrefixOf imageUrl) then
    (mkErr (str "Image URL must be a valid HTTP/HTTPS URL accessible by Instagram"), [])
  else if strContains imageUrl (str "localhost") || strContains imageUrl (str "127.0.0.1") then
    match net.head imageUrl with
    | .ok 200 =>
      (mkErr (str "Instagram cannot access localhost URLs. Image is available locally but not publicly accessible. Use ngrok (ngrok http 5555) or upload to cloud storage to make it publicly accessible."),
       [Req.headCheck imageUrl])
    | .ok code =>
      (mkErr (str "Image not accessible even locally: HTTP " ++ natToStr code),
       [Req.headCheck imageUrl])
    | .error e =>
      (mkErr (str "Cannot access image URL locally: " ++ e), [Req.headCheck imageUrl])
  else
    match net.head imageUrl with
    | .ok 200 =>
      let req := Req.createFeed accountId imageUrl caption
      (match net.graph req with
       | .ok cid => { id := some cid }
       | .noId msg => mkErr (str "Instagram API error: " ++ msg)
       | .httpErr m => mkErr (str "Failed to upload media: " ++ m)
       | .netErr e => mkErr (str "Network error during media upload: " ++ e),
       [Req.headCheck imageUrl, req])
    | .ok code =>
      (mkErr (str "Image URL not accessible: HTTP " ++ natToStr code ++
         str ". Please check the URL and ensure it\x27s publicly accessible."),
       [Req.headCheck imageUrl])
    | .error e =>
      (mkErr (str "Cannot access image URL: " ++ e ++
         str ". Please check the URL and network connectivity."),
       [Req.headCheck imageUrl])

/-- `InstagramAPI.publish_media`: publishes a previously created container. -/
def publishMedia (net : Net) (accountId creationId : Str) : ApiDict × List Req :=
  let req := Req.publish accountId creationId
  (match net.graph req with
   | .ok pid => { id := some pid }
   | .noId msg => mkErr (str "Instagram API error: " ++ msg)
   | .httpErr m => mkErr (str "Failed to publish media: " ++ m)
   | .netErr e => mkErr (str "Network error during media publish: " ++ e),
   [req])

/-- `InstagramAPI.post_to_instagram`: the composite feed flow.  The
simulation-account check is performed on the raw `access_token` argument,
before any validation or network traffic; `now` is `int(time.time())`. -/
def postToInstagram (net : Net) (accountId imageUrl caption : Str)
    (accessToken defaultToken : Option Str) (now : Nat) : ApiDict × List Req :=
  if isTestToken accessToken then
    ({ id := some (str "test_post_" ++ accountId ++ str "_" ++ natToStr now),
       message := some (str "Test post created successfully (no actual Instagram API call)") },
     [])
  else
    let up := uploadMedia net accountId imageUrl caption accessToken defaultToken
    match up.1.error with
    | some e => (mkErr (str "Upload failed: " ++ e), up.2)
    | none =>
      match up.1.id with
      | none => (mkErr (str "Upload failed - no container ID returned"), up.2)
      | some cid =>
        let pub := publishMedia net accountId cid
        match pub.1.error with
        | some e => (mkErr (str "Publish failed: " ++ e), up.2 ++ pub.2)
        | none => (pub.1, up.2 ++ pub.2)

/-- `InstagramAPI.post_story`: the story flow.  For real accounts the story
container request is issued directly, with no URL validation or
reachability probe. -/
def postStory (net : Net) (accountId imageUrl : Str) (storyElements : Option StoryElements)
    (accessToken defaultToken : Option Str) (now : Nat) : ApiDict × List Req :=
  let token := resolveToken accessToken defaultToken
  if isTestToken token then
    ({ id := some (str "test_story_" ++ accountId ++ str "_" ++ natToStr now),
       message := some (str "Test story created successfully") },
     [])
  else
    let req := Req.createStory accountId imageUrl storyElements
    match net.graph req with
    | .ok cid =>
      let pub := publishMedia net accountId cid
      (pub.1, req :: pub.2)
    | .noId msg => (mkErr (str "Story creation failed: " ++ msg), [req])
    | .httpErr m => (mkErr (str "Failed to create story: " ++ m), [req])
    | .netErr e => (mkErr (str "Network error during story creation: " ++ e), [req])

/-- The child-container loop of `InstagramAPI.post_carousel`: one container
per image, aborting on the first failure; `i` is the zero-based loop index
(error messages use `i + 1`). -/
def createChildren (net : Net) (accountId : Str) : List Str → Nat → (Except Str (List Str)) × List Req
  | [], _ => (.ok [], [])
  | u :: rest, i =>
    match net.graph (Req.createChild accountId u) with
    | .ok cid =>
      let r := createChildren net accountId rest (i + 1)
      (r.1.map fun ids => cid :: ids, Req.createChild accountId u :: r.2)
    | .noId msg =>
      (.error (str "Failed to create container for image " ++ natToStr (i + 1) ++ str ": " ++ msg),
       [Req.createChild accountId u])
    | .httpErr m =>
      (.error (str "Failed to create container for image " ++ natToStr (i + 1) ++ str ": " ++ m),
       [Req.createChild accountId u])
    | .netErr e =>
      (.error (str "Network error creating container for image " ++ natToStr (i + 1) ++ str ": " ++ e),
       [Req.createChild accountId u])

/-- `InstagramAPI.post_carousel`: child containers, then the parent carousel
container whose `children` field is the comma-join of the child ids in
input order, then publish. -/
def postCarousel (net : Net) (accountId : Str) (imageUrls : List Str) (caption : Str)
    (accessToken defaultToken : Option Str) (now : Nat) : ApiDict × List Req :=
  let token := resolveToken accessToken defaultToken
  if isTestToken token then
    ({ id := some (str "test_carousel_" ++ accountId ++ str "_" ++ natToStr now),
       message := some (str "Test carousel created successfully") },
     [])
  else
    let children := createChildren net accountId imageUrls 0
    match children.1 with
    | .error msg => (mkErr msg, children.2)
    | .ok mediaIds =>
      let preq := Req.createParent accountId (List.intercalate (str ",") mediaIds) caption
      match net.graph preq with
      | .ok cid =>
        let pub := publishMedia net accountId cid
        (pub.1, children.2 ++ preq :: pub.2)
      | .noId msg => (mkErr (str "Carousel creation failed: " ++ msg), children.2 ++ [preq])
      | .httpErr m => (mkErr (str "Failed to create carousel: " ++ m), children.2 ++ [preq])
      | .netErr e =>
        (mkErr (str "Network error during carousel creation: " ++ e), children.2 ++ [preq])

/-- Whether the child-container call for `u` succeeds under `net`. -/
def childOk (net : Net) (accountId u : Str) : Bool :=
  match net.graph (Req.createChild accountId u) with
  | .ok _ => true
  | _ => false

/-- The container id the child call for `u` returns under `net` (empty when
the call fails). -/
def childIdOf (net : Net) (accountId u : Str) : Str :=
  match net.graph (Req.createChild accountId u) with
  | .ok cid => cid
  | _ => []

/-! ## The executor (`execute_scheduled_post`) -/

/-- The `accounts` row fields the executor reads. -/
structure Account where
  instagramId : Str
  accessToken : Str
  isActive : Bool
deriving DecidableEq

/-- The `posts` row fields the executor reads and writes.  `mediaUrls` and
`storyElements` are the raw JSON text columns (falsy columns modelled as
`none`); `status` is the stringly-typed status column. -/
structure Post where
  accountId : Nat
  postType : Str
  caption : Str
  mediaUrls : Option Str
  storyElements : Option Str
  scheduledTime : Nat
  actualPostTime : Option Nat
  status : Str
  instagramPostId : Option Str
  errorMessage : Option Str
  updatedAt : Nat
deriving DecidableEq

/-- The collaborators of `execute_scheduled_post`, each of which may raise an
exception (modelled by `Except.error` carrying `str(e)`): the account query,
`json.loads` on the two JSON columns, and the three `instagram_api` composite
publish methods (instagram id, media, caption or elements, access token). -/
structure ExecEnv where
  getAccount : Nat → Except Str (Option Account)
  parseJsonList : Str → Except Str (List Str)
  parseJsonObj : Str → Except Str StoryElements
  postStoryApi : Str → Str → StoryElements → Str → Except Str (Option ApiDict)
  postCarouselApi : Str → List Str → Str → Str → Except Str (Option ApiDict)
  postFeedApi : Str → Str → Str → Str → Except Str (Option ApiDict)

/-- Transition of a post to `failed` with a reason, stamping `updated_at`
(the column has an `onupdate` default, so every committed mutation stamps it). -/
def failWith (post : Post) (msg : Str) (now : Nat) : Post :=
  { post with status := str "failed", errorMessage := some msg, updatedAt := now }

/-- `json.loads(post.media_urls) if post.media_urls else []`. -/
def parsedMediaUrls (env : ExecEnv) (post : Post) : Except Str (List Str) :=
  match post.mediaUrls with
  | none => .ok []
  | some s => env.parseJsonList s

/-- `json.loads(post.story_elements) if post.story_elements else {}`. -/
def parsedStoryElements (env : ExecEnv) (post : Post) : Except Str StoryElements :=
  match post.storyElements with
  | none => .ok {}
  | some s => env.parseJsonObj s

/-- The dispatch on `post.post_type`: story and feed use the first media URL,
carousel the whole list.  Only invoked with a non-empty `mediaUrls`. -/
def dispatchPost (env : ExecEnv) (post : Post) (account : Account)
    (mediaUrls : List Str) : Except Str (Option ApiDict) :=
  if post.postType = str "story" then
    match parsedStoryElements env post with
    | .error e => .error e
    | .ok elems =>
      env.postStoryApi account.instagramId (mediaUrls.headD []) elems account.accessToken
  else if post.postType = str "carousel" then
    env.postCarouselApi account.instagramId mediaUrls post.caption account.accessToken
  else
    env.postFeedApi account.instagramId (mediaUrls.headD []) post.caption account.accessToken

/-- The body of `execute_scheduled_post` after the idempotency guard: the
whole of it sits inside `try/except Exception`, so every `Except.error`
from a collaborator becomes a `failed` transition recording `str(e)`. -/
def executeBody (env : ExecEnv) (now : Nat) (post : Post) : Post :=
  match env.getAccount post.accountId with
  | .error e => failWith post e now
  | .ok none => failWith post (str "Account not found or inactive") now
  | .ok (some account) =>
    if !account.isActive then failWith post (str "Account not found or inactive") now
    else
      match parsedMediaUrls env post with
      | .error e => failWith post e now
      | .ok [] => failWith post (str "No media URLs found") now
      | .ok (u :: rest) =>
        match dispatchPost env post account (u :: rest) with
        | .error e => failWith post e now
        | .ok result =>
          match result with
          | some d =>
            match d.id with
            | some pid =>
              { post with status := str "posted", instagramPostId := some pid,
                          actualPostTime := some now, updatedAt := now }
            | none =>
              match d.error with
              | some msg => failWith post msg now
              | none =>
                failWith post (str "Unknown error occurred while posting to Instagram") now
          | none =>
            failWith post (str "Unknown error occurred while posting to Instagram") now

/-- `execute_scheduled_post`: load the post (`none` models a missing row);
if missing or not in status `scheduled`, do nothing; otherwise run the body.
The returned value is the stored post row after the call. -/
def executeScheduledPost (env : ExecEnv) (now : Nat) (post? : Option Post) : Option Post :=
  match post? with
  | none => none
  | some post =>
    if post.status ≠ str "scheduled" then some post
    else some (executeBody env now post)

/-! ## Scheduling (`ScheduleCalculator`) -/

/-- The `posts` row fields the daily-quota query reads; `scheduledTime` is in
seconds of naive UTC time. -/
structure PostRow where
  accountId : Nat
  scheduledTime : Nat
  status : Str
deriving DecidableEq

/-- `Post.get_daily_post_count`: posts of the account whose `scheduled_time`
lies between the start and the end of the given UTC day and whose status is
not `cancelled`.  `date` is the UTC day number. -/
def getDailyPostCount (posts : List PostRow) (accountId : Nat) (date : Nat) : Nat :=
  let startOfDay := date * 86400
  let endOfDay := date * 86400 + 86399
  (posts.filter fun p =>
    decide (p.accountId = accountId ∧ startOfDay ≤ p.scheduledTime ∧
      p.scheduledTime ≤ endOfDay ∧ p.status ≠ str "cancelled")).length

/-- The `posting_schedule` row fields the slot computation reads: the two
daily slots as seconds of local day, and the jitter window in minutes. -/
structure PostingSchedule where
  timeSlot1 : Nat
  timeSlot2 : Nat
  varianceMinutes : Nat
deriving DecidableEq

/-- Asia/Kolkata is UTC+05:30 all year. -/
def kolkataOffset : Nat := 19800

/-- `calculate_post_time`: the random draw of
`random.randint(-60 * variance, 60 * variance)` is exposed as `offset`. -/
def calculatePostTime (base offset : Int) : Int := base + offset

/-- `get_next_available_slot`: local Kolkata now is `localDay` (local day
number) and `localSec` (seconds of local day); picks slot1 today, slot2
today, or slot1 tomorrow, applies the jitter `offset`, and converts
local naive time to naive UTC by subtracting the fixed zone offset.
With no active schedule it degenerates to the current UTC instant. -/
def getNextAvailableSlot (localDay localSec : Nat) (schedule : Option PostingSchedule)
    (offset : Int) (utcNow : Int) : Int :=
  match schedule with
  | some s =>
    let base : Int :=
      if localSec < s.timeSlot1 then ((localDay * 86400 + s.timeSlot1 : Nat) : Int)
      else if localSec < s.timeSlot2 then ((localDay * 86400 + s.timeSlot2 : Nat) : Int)
      else (((localDay + 1) * 86400 + s.timeSlot1 : Nat) : Int)
    calculatePostTime base offset - (kolkataOffset : Int)
  | none => utcNow

/-- The fixed story cadence of `get_next_story_slot`. -/
def storyHours : List Nat := [6, 8, 10, 12, 14, 16, 18, 20, 22, 0, 2]

/-- `get_next_story_slot`: the first cadence hour strictly greater than the
current local hour, else 06:00 local tomorrow; converted to naive UTC.
It consults no `PostingSchedule`. -/
def getNextStorySlot (localDay localSec : Nat) : Int :=
  let currentHour := localSec / 3600
  match storyHours.find? (fun h => decide (currentHour < h)) with
  | some h => ((localDay * 86400 + h * 3600 : Nat) : Int) - (kolkataOffset : Int)
  | none => (((localDay + 1) * 86400 + 6 * 3600 : Nat) : Int) - (kolkataOffset : Int)

/-- `queue_next_available_time`: at or over the daily quota of 25 the post is
forced to 06:00 UTC the next day, otherwise the next available slot is used.
`todayUtc` is the current UTC day number. -/
def queueNextAvailableTime (posts : List PostRow) (accountId : Nat) (todayUtc : Nat)
    (localDay localSec : Nat) (schedule : Option PostingSchedule)
    (offset : Int) (utcNow : Int) : Int :=
  if 25 ≤ getDailyPostCount posts accountId todayUtc then
    (((todayUtc + 1) * 86400 + 6 * 3600 : Nat) : Int)
  else getNextAvailableSlot localDay localSec schedule offset utcNow

/-- `calculate_scheduled_time`: mode dispatch for feed and carousel posts. -/
def calculateScheduledTime (scheduleType : Str) (localDay localSec : Nat)
    (schedule : Option PostingSchedule) (offset : Int) (utcNow : Int) : Int :=
  if scheduleType = str "now" then utcNow
  else if scheduleType = str "next_slot" then
    getNextAvailableSlot localDay localSec schedule offset utcNow
  else if scheduleType = str "specific" then utcNow
  else utcNow

/-- `calculate_story_schedule_time`: mode dispatch for stories. -/
def calculateStoryScheduleTime (scheduleType : Str) (posts : List PostRow)
    (accountId : Nat) (todayUtc : Nat) (localDay localSec : Nat)
    (schedule : Option PostingSchedule) (offset : Int) (utcNow : Int) : Int :=
  if scheduleType = str "now" then utcNow
  else if scheduleType = str "auto_story" then getNextStorySlot localDay localSec
  else if scheduleType = str "queue" then
    queueNextAvailableTime posts accountId todayUtc localDay localSec schedule offset utcNow
  else utcNow

/-! ## Caption composition (`process_caption_template`) -/

/-- The time-of-day bucket of `process_caption_template`. -/
def timePeriodOfHour (hour : Nat) : Str :=
  if 5 ≤ hour ∧ hour < 12 then str "morning"
  else if 12 ≤ hour ∧ hour < 17 then str "afternoon"
  else if 17 ≤ hour ∧ hour < 21 then str "evening"
  else str "night"

/-- `process_caption_template`: the local hour is always taken in the
hard-coded Asia/Kolkata zone (`datetime.now(pytz.timezone('Asia/Kolkata'))`);
`utcSec` is the current UTC time in seconds, and the three locale-rendered
strftime strings are supplied by the clock.  The placeholders are replaced
in the source order. -/
def processCaptionTemplate (utcSec : Nat) (dateStr timeStr dayStr : Str)
    (template customText accountName : Str) : Str :=
  let hour := ((utcSec + kolkataOffset) / 3600) % 24
  let timePeriod := timePeriodOfHour hour
  let p1 := strReplace template (str "\x7baccount_name\x7d") accountName
  let p2 := strReplace p1 (str "\x7bdate\x7d") dateStr
  let p3 := strReplace p2 (str "\x7btime\x7d") timeStr
  let p4 := strReplace p3 (str "\x7bday_of_week\x7d") dayStr
  let p5 := strReplace p4 (str "\x7btime_period\x7d") timePeriod
  strReplace p5 (str "\x7bcustom_text\x7d") customText

/-- The caption composer as the specification words it: identical, except
that the local hour is computed in the timezone configured for the account
(given as `tzOffset` seconds east of UTC). -/
def processCaptionTemplateSpecTz (utcSec tzOffset : Nat) (dateStr timeStr dayStr : Str)
    (template customText accountName : Str) : Str :=
  let hour := ((utcSec + tzOffset) / 3600) % 24
  let timePeriod := timePeriodOfHour hour
  let p1 := strReplace template (str "\x7baccount_name\x7d") accountName
  let p2 := strReplace p1 (str "\x7bdate\x7d") dateStr
  let p3 := strReplace p2 (str "\x7btime\x7d") timeStr
  let p4 := strReplace p3 (str "\x7bday_of_week\x7d") dayStr
  let p5 := strReplace p4 (str "\x7btime_period\x7d") timePeriod
  strReplace p5 (str "\x7bcustom_text\x7d") customText

/-! ## Fixtures for witnesses -/

/-- An environment in which every collaborator succeeds trivially. -/
def demoEnv : ExecEnv where
  getAccount := fun _ => .ok none
  parseJsonList := fun _ => .ok []
  parseJsonObj := fun _ => .ok {}
  postStoryApi := fun _ _ _ _ => .ok none
  postCarouselApi := fun _ _ _ _ => .ok none
  postFeedApi := fun _ _ _ _ => .ok none

/-- An environment whose account query raises an exception. -/
def demoEnvRaising : ExecEnv :=
  { demoEnv with getAccount := fun _ => .error (str "database exploded") }

/-- An environment in which a feed post publishes successfully. -/
def demoEnvOk : ExecEnv :=
  { demoEnv with
    getAccount := fun _ =>
      .ok (some { instagramId := str "17841400000000000", accessToken := str "EAAtok",
                  isActive := true })
    parseJsonList := fun _ => .ok [str "https://cdn.example.com/a.jpg"]
    postFeedApi := fun _ _ _ _ => .ok (some { id := some (str "90001") }) }

/-- A post that already reached the terminal state `posted`. -/
def demoPostedPost : Post where
  accountId := 1
  postType := str "feed"
  caption := str "hello"
  mediaUrls := some (str "[\x22https://cdn.example.com/a.jpg\x22]")
  storyElements := none
  scheduledTime := 1000
  actualPostTime := some 1200
  status := str "posted"
  instagramPostId := some (str "42")
  errorMessage := none
  updatedAt := 1200

/-- A post still in status `scheduled`. -/
def demoScheduledPost : Post where
  accountId := 1
  postType := str "feed"
  caption := str "hello"
  mediaUrls := some (str "[\x22https://cdn.example.com/a.jpg\x22]")
  storyElements := none
  scheduledTime := 1000
  actualPostTime := none
  status := str "scheduled"
  instagramPostId := none
  errorMessage := none
  updatedAt := 900

/-! ## C1, C2, C10: the executor -/

lemma failWith_status (p : Post) (msg : Str) (now : Nat) :
    (failWith p msg now).status = str "failed" := rfl

/-- C1: for every post id, if the post record is missing or its status is not
`scheduled` (in particular after a first execution already moved it to
`posted` or `failed`), invoking the post executor is a no-op: the stored post
row (and hence its status, platform post id and error message) is unchanged. -/
theorem C1_executor_guard_noop (env : ExecEnv) (now : Nat) (post? : Option Post)
    (h : post? = none ∨ ∃ p, post? = some p ∧ p.status ≠ str "scheduled") :
    executeScheduledPost env now post? = post? := by
  rcases h with h | ⟨p, hp, hne⟩
  · subst h; rfl
  · subst hp
    simp only [executeScheduledPost, if_pos hne]

theorem C1_executor_guard_noop_witness :
    executeScheduledPost demoEnvRaising 7 (some demoPostedPost) = some demoPostedPost :=
  C1_executor_guard_noop demoEnvRaising 7 (some demoPostedPost)
    (Or.inr ⟨demoPostedPost, rfl, by decide⟩)

/-- C2: for every post in status `scheduled` on which execution begins, any
exception raised during account lookup, media-URL parsing, or dispatch to the
publisher is caught; the post is moved to `failed` with the exception message
as `error_message`, and the post never remains `scheduled` after the attempt
(the result is always `posted` or `failed`). -/
theorem C2_executor_failure_handling (env : ExecEnv) (now : Nat) (p : Post)
    (hs : p.status = str "scheduled") :
    executeScheduledPost env now (some p) = some (executeBody env now p) ∧
    ((executeBody env now p).status = str "posted" ∨
      (executeBody env now p).status = str "failed") ∧
    (∀ e, env.getAccount p.accountId = .error e →
      executeBody env now p = failWith p e now) ∧
    (∀ a s e, env.getAccount p.accountId = .ok (some a) → a.isActive = true →
      p.mediaUrls = some s → env.parseJsonList s = .error e →
      executeBody env now p = failWith p e now) ∧
    (∀ a u rest e, env.getAccount p.accountId = .ok (some a) → a.isActive = true →
      parsedMediaUrls env p = .ok (u :: rest) →
      dispatchPost env p a (u :: rest) = .error e →
      executeBody env now p = failWith p e now) ∧
    (∀ msg, (failWith p msg now).status = str "failed" ∧
      (failWith p msg now).errorMessage = some msg) := by
  refine ⟨?_, ?_, ?_, ?_, ?_, ?_⟩
  · simp only [executeScheduledPost]
    rw [if_neg (fun hne => hne hs)]
  · unfold executeBody
    repeat' split
    all_goals first
    | exact Or.inl rfl
    | exact Or.inr rfl
  · intro e he
    unfold executeBody
    rw [he]
  · intro a s e hacc ha hm hparse
    have hpm : parsedMediaUrls env p = .error e := by
      unfold parsedMediaUrls
      rw [hm]
      exact hparse
    unfold executeBody
    rw [hacc]
    simp only [ha, Bool.not_true, Bool.false_eq_true, if_false, hpm]
  · intro a u rest e hacc ha hurls hd
    unfold executeBody
    rw [hacc]
    simp only [ha, Bool.not_true, Bool.false_eq_true, if_false, hurls, hd]
  · intro msg
    exact ⟨rfl, rfl⟩

theorem C2_executor_failure_handling_witness :
    executeScheduledPost demoEnvRaising 7 (some demoScheduledPost) =
      some (failWith demoScheduledPost (str "database exploded") 7) := by
  have h := C2_executor_failure_handling demoEnvRaising 7 demoScheduledPost (by decide)
  rw [h.1, h.2.2.1 (str "database exploded") rfl]

/-- C10: whenever the executor transitions a post out of `scheduled` into
`posted`, the dispatch returned a dictionary carrying a platform id, and that
id is recorded in `instagram_post_id` together with `actual_post_time`; a
post never leaves the executor in status `posted` with a null platform id. -/
theorem C10_posted_implies_id_recorded (env : ExecEnv) (now : Nat) (p q : Post)
    (hs : p.status = str "scheduled")
    (hr : executeScheduledPost env now (some p) = some q)
    (hq : q.status = str "posted") :
    ∃ a u rest d pid,
      env.getAccount p.accountId = .ok (some a) ∧ a.isActive = true ∧
      parsedMediaUrls env p = .ok (u :: rest) ∧
      dispatchPost env p a (u :: rest) = .ok (some d) ∧
      d.id = some pid ∧
      q.instagramPostId = some pid ∧ q.actualPostTime = some now ∧
      q = { p with status := str "posted", instagramPostId := some pid,
                   actualPostTime := some now, updatedAt := now } := by
  have hbody : executeBody env now p = q := by
    have h := hr
    simp only [executeScheduledPost] at h
    rw [if_neg (fun hne => hne hs)] at h
    exact Option.some.inj h
  subst hbody
  unfold executeBody at hq ⊢
  split at hq
  next e heq => rw [failWith_status] at hq; exact absurd hq (by decide)
  next heq => rw [failWith_status] at hq; exact absurd hq (by decide)
  next a heq =>
    split at hq
    next hact => rw [failWith_status] at hq; exact absurd hq (by decide)
    next hact =>
      split at hq
      next e hurls => rw [failWith_status] at hq; exact absurd hq (by decide)
      next hurls => rw [failWith_status] at hq; exact absurd hq (by decide)
      next u rest hurls =>
        split at hq
        next e hd => rw [failWith_status] at hq; exact absurd hq (by decide)
        next result hd =>
          split at hq
          next d =>
            split at hq
            next pid hid =>
              have hact2 : a.isActive = true := by simpa using hact
              simp only [hact2, Bool.not_true, Bool.false_eq_true, if_false]
              refine ⟨a, u, rest, d, pid, ?_, ?_, ?_, ?_, ?_, ?_, ?_, ?_⟩ <;>
                first
                | exact heq
                | exact hact2
                | exact hurls
                | exact hd
                | exact hid
                | rfl
                | trivial
            next hid =>
              split at hq
              next msg he => rw [failWith_status] at hq; exact absurd hq (by decide)
              next he => rw [failWith_status] at hq; exact absurd hq (by decide)
          next => rw [failWith_status] at hq; exact absurd hq (by decide)

/-- The post row produced by a successful run over `demoEnvOk` at time 3. -/
def demoPostedResult : Post :=
  { demoScheduledPost with
    status := str "posted", instagramPostId := some (str "90001"),
    actualPostTime := some 3, updatedAt := 3 }

theorem C10_posted_implies_id_recorded_witness :
    ∃ a u rest d pid,
      demoEnvOk.getAccount demoScheduledPost.accountId = .ok (some a) ∧ a.isActive = true ∧
      parsedMediaUrls demoEnvOk demoScheduledPost = .ok (u :: rest) ∧
      dispatchPost demoEnvOk demoScheduledPost a (u :: rest) = .ok (some d) ∧
      d.id = some pid ∧
      demoPostedResult.instagramPostId = some pid ∧
      demoPostedResult.actualPostTime = some 3 ∧
      demoPostedResult =
        { demoScheduledPost with
          status := str "posted", instagramPostId := some pid,
          actualPostTime := some 3, updatedAt := 3 } :=
  C10_posted_implies_id_recorded demoEnvOk 3 demoScheduledPost demoPostedResult
    (by decide) (by decide) (by decide)

/-! ## C4: the daily quota in queue mode -/

/-- C4: with 25 or more existing posts of the account that are not cancelled
and whose scheduled time falls within the current UTC calendar day, queue
scheduling returns 06:00 UTC on the next day regardless of the configured
slots; with fewer than 25 such posts it returns exactly the next-slot
result.  Membership in the UTC day is stated by day number, which is shown
equivalent to the interval comparison the code performs. -/
theorem C4_queue_quota (posts : List PostRow) (accountId todayUtc localDay localSec : Nat)
    (schedule : Option PostingSchedule) (offset : Int) (utcNow : Int) :
    (25 ≤ (posts.filter fun p =>
        decide (p.accountId = accountId ∧ p.scheduledTime / 86400 = todayUtc ∧
          p.status ≠ str "cancelled")).length →
      queueNextAvailableTime posts accountId todayUtc localDay localSec schedule offset utcNow =
        (((todayUtc + 1) * 86400 + 6 * 3600 : Nat) : Int)) ∧
    ((posts.filter fun p =>
        decide (p.accountId = accountId ∧ p.scheduledTime / 86400 = todayUtc ∧
          p.status ≠ str "cancelled")).length < 25 →
      queueNextAvailableTime posts accountId todayUtc localDay localSec schedule offset utcNow =
        getNextAvailableSlot localDay localSec schedule offset utcNow) := by
  have hcount : getDailyPostCount posts accountId todayUtc =
      (posts.filter fun p =>
        decide (p.accountId = accountId ∧ p.scheduledTime / 86400 = todayUtc ∧
          p.status ≠ str "cancelled")).length := by
    unfold getDailyPostCount
    dsimp only
    congr 1
    apply List.filter_congr
    intro p _
    rw [decide_eq_decide]
    constructor
    · rintro ⟨h1, h2, h3, h4⟩
      exact ⟨h1, by omega, h4⟩
    · rintro ⟨h1, h2, h3⟩
      exact ⟨h1, by omega, by omega, h3⟩
  constructor
  · intro h
    unfold queueNextAvailableTime
    rw [if_pos (by rw [hcount]; exact h)]
  · intro h
    unfold queueNextAvailableTime
    rw [if_neg (by rw [hcount]; omega)]

/-- A list of 25 posts of account 1, all scheduled inside UTC day 0. -/
def demoQuotaPosts : List PostRow :=
  List.replicate 25 { accountId := 1, scheduledTime := 3600, status := str "scheduled" }

theorem C4_queue_quota_witness :
    queueNextAvailableTime demoQuotaPosts 1 0 0 0 none 0 0 =
      (((0 + 1) * 86400 + 6 * 3600 : Nat) : Int) :=
  (C4_queue_quota demoQuotaPosts 1 0 0 0 none 0 0).1 (by decide)

/-! ## C5: next-slot scheduling with jitter -/

/-- C5 (amended): with an active schedule and jitter window `V` minutes, the
result of next-slot scheduling, read in local time (adding back the fixed
zone offset subtracted for storage), equals the chosen slot plus the jitter
offset: slot1 today when local now is strictly before slot1 (and then lies
within slot1 plus or minus `V` minutes, falling on the same local calendar
day provided the jitter window fits between the slot and both midnights),
slot2 today when at or past slot1 but strictly before slot2, and slot1
tomorrow otherwise. -/
theorem C5_next_slot_amended (localDay localSec : Nat) (s : PostingSchedule)
    (offset : Int) (utcNow : Int)
    (hlo : -(60 * (s.varianceMinutes : Int)) ≤ offset)
    (hhi : offset ≤ 60 * (s.varianceMinutes : Int)) :
    (localSec < s.timeSlot1 →
      getNextAvailableSlot localDay localSec (some s) offset utcNow + (kolkataOffset : Int) =
        ((localDay * 86400 + s.timeSlot1 : Nat) : Int) + offset ∧
      ((localDay * 86400 + s.timeSlot1 : Nat) : Int) - 60 * (s.varianceMinutes : Int) ≤
        getNextAvailableSlot localDay localSec (some s) offset utcNow + (kolkataOffset : Int) ∧
      getNextAvailableSlot localDay localSec (some s) offset utcNow + (kolkataOffset : Int) ≤
        ((localDay * 86400 + s.timeSlot1 : Nat) : Int) + 60 * (s.varianceMinutes : Int) ∧
      (60 * s.varianceMinutes ≤ s.timeSlot1 → s.timeSlot1 + 60 * s.varianceMinutes < 86400 →
        ((localDay * 86400 : Nat) : Int) ≤
          getNextAvailableSlot localDay localSec (some s) offset utcNow + (kolkataOffset : Int) ∧
        getNextAvailableSlot localDay localSec (some s) offset utcNow + (kolkataOffset : Int) <
          (((localDay + 1) * 86400 : Nat) : Int))) ∧
    (s.timeSlot1 ≤ localSec → localSec < s.timeSlot2 →
      getNextAvailableSlot localDay localSec (some s) offset utcNow + (kolkataOffset : Int) =
        ((localDay * 86400 + s.timeSlot2 : Nat) : Int) + offset) ∧
    (s.timeSlot1 ≤ localSec → s.timeSlot2 ≤ localSec →
      getNextAvailableSlot localDay localSec (some s) offset utcNow + (kolkataOffset : Int) =
        (((localDay + 1) * 86400 + s.timeSlot1 : Nat) : Int) + offset) := by
  unfold getNextAvailableSlot calculatePostTime kolkataOffset
  dsimp only
  refine ⟨fun h1 => ?_, fun h1 h2 => ?_, fun h1 h2 => ?_⟩
  · rw [if_pos h1]
    refine ⟨by push_cast; omega, by push_cast; omega, by push_cast; omega, fun hv1 hv2 => ?_⟩
    constructor
    · push_cast
      omega
    · push_cast
      omega
  · rw [if_neg (by omega), if_pos h2]
    push_cast
    omega
  · rw [if_neg (by omega), if_neg (by omega)]
    push_cast
    omega

/-- A schedule with slots at 13:00 and 22:00 local and a 15 minute jitter. -/
def demoSchedule : PostingSchedule :=
  { timeSlot1 := 46800, timeSlot2 := 79200, varianceMinutes := 15 }

theorem C5_next_slot_amended_witness :
    getNextAvailableSlot 10 46800 (some demoSchedule) 300 0 + (kolkataOffset : Int) =
      ((10 * 86400 + demoSchedule.timeSlot2 : Nat) : Int) + 300 :=
  (C5_next_slot_amended 10 46800 demoSchedule 300 0 (by decide) (by decide)).2.1
    (by decide) (by decide)

/-- C5 counterexample: with slot1 at 00:10 local, jitter window 15 minutes
and an in-window draw of -900 seconds, the computed local time falls before
local midnight, i.e. not on the same local calendar day, refuting the
same-day part of the claim. -/
theorem C5_next_slot_same_day_cex :
    (0 : Nat) < 600 ∧
    -(60 * ((15 : Nat) : Int)) ≤ (-900 : Int) ∧ (-900 : Int) ≤ 60 * ((15 : Nat) : Int) ∧
    getNextAvailableSlot 10 0 (some { timeSlot1 := 600, timeSlot2 := 3600, varianceMinutes := 15 })
        (-900) 0 + (kolkataOffset : Int) = (10 : Int) * 86400 - 300 ∧
    getNextAvailableSlot 10 0 (some { timeSlot1 := 600, timeSlot2 := 3600, varianceMinutes := 15 })
        (-900) 0 + (kolkataOffset : Int) < (10 : Int) * 86400 := by
  decide

/-! ## C9: behaviour without an active schedule -/

/-- C9 (amended): with no active posting schedule, next-slot scheduling
returns the current UTC instant, and queue scheduling does so as well when
the account is under its daily quota; auto-story scheduling however never
consults the schedule and always returns the next fixed two-hour cadence
slot, not the current instant. -/
theorem C9_no_schedule_amended (posts : List PostRow) (accountId todayUtc localDay localSec : Nat)
    (offset : Int) (utcNow : Int) :
    getNextAvailableSlot localDay localSec none offset utcNow = utcNow ∧
    calculateScheduledTime (str "next_slot") localDay localSec none offset utcNow = utcNow ∧
    (getDailyPostCount posts accountId todayUtc < 25 →
      calculateStoryScheduleTime (str "queue") posts accountId todayUtc localDay localSec
        none offset utcNow = utcNow) ∧
    (∀ schedule : Option PostingSchedule,
      calculateStoryScheduleTime (str "auto_story") posts accountId todayUtc localDay localSec
        schedule offset utcNow = getNextStorySlot localDay localSec) := by
  refine ⟨rfl, ?_, fun h => ?_, fun schedule => ?_⟩
  · unfold calculateScheduledTime
    rw [if_neg (by decide), if_pos rfl]
    rfl
  · unfold calculateStoryScheduleTime queueNextAvailableTime
    rw [if_neg (by decide), if_neg (by decide), if_pos rfl, if_neg (by omega)]
    rfl
  · unfold calculateStoryScheduleTime
    rw [if_neg (by decide), if_pos rfl]

theorem C9_no_schedule_amended_witness :
    calculateStoryScheduleTime (str "queue") [] 1 0 0 0 none 0 5 = 5 ∧
    calculateStoryScheduleTime (str "auto_story") [] 1 0 0 0 none 0 5 = getNextStorySlot 0 0 :=
  ⟨(C9_no_schedule_amended [] 1 0 0 0 0 5).2.2.1 (by decide),
   (C9_no_schedule_amended [] 1 0 0 0 0 5).2.2.2 none⟩

/-- C9 counterexample: an account with no active schedule, at local hour 7
(UTC instant written consistently with the fixed zone offset): auto-story
mode returns the 08:00 cadence slot, not the current UTC instant. -/
theorem C9_auto_story_not_now_cex :
    calculateStoryScheduleTime (str "auto_story") [] 1 100 100 (7 * 3600) none 0
        (((100 * 86400 + 7 * 3600 : Nat) : Int) - 19800) ≠
      ((100 * 86400 + 7 * 3600 : Nat) : Int) - 19800 := by
  decide

/-! ## C8: caption composition -/

/-- C8 counterexample: at 00:30 UTC with an account whose configured zone is
UTC (offset 0), the claimed semantics yields the `night` bucket while the
code, hard-wired to Asia/Kolkata, yields `morning`. -/
theorem C8_caption_timezone_cex :
    processCaptionTemplate 1800 (str "D") (str "T") (str "W")
        (str "\x7btime_period\x7d") (str "") (str "acme") = str "morning" ∧
    processCaptionTemplateSpecTz 1800 0 (str "D") (str "T") (str "W")
        (str "\x7btime_period\x7d") (str "") (str "acme") = str "night" ∧
    processCaptionTemplate 1800 (str "D") (str "T") (str "W")
        (str "\x7btime_period\x7d") (str "") (str "acme") ≠
      processCaptionTemplateSpecTz 1800 0 (str "D") (str "T") (str "W")
        (str "\x7btime_period\x7d") (str "") (str "acme") := by
  decide

/-- C8 (amended): caption composition substitutes the placeholders with the
claimed time-of-day buckets, and the example template with account name
`acme` at local hour 9 yields `acme says hi at morning`; the local hour is
however always computed in the fixed Asia/Kolkata zone, never in a
per-account timezone (the composition coincides everywhere with the
spec-worded variant instantiated at the fixed zone offset). -/
theorem C8_caption_amended (utcSec : Nat) (dateStr timeStr dayStr template customText
    accountName : Str) :
    processCaptionTemplate utcSec dateStr timeStr dayStr template customText accountName =
      processCaptionTemplateSpecTz utcSec kolkataOffset dateStr timeStr dayStr template
        customText accountName ∧
    (∀ h : Nat, 5 ≤ h → h < 12 → timePeriodOfHour h = str "morning") ∧
    (∀ h : Nat, 12 ≤ h → h < 17 → timePeriodOfHour h = str "afternoon") ∧
    (∀ h : Nat, 17 ≤ h → h < 21 → timePeriodOfHour h = str "evening") ∧
    (∀ h : Nat, h < 5 ∨ 21 ≤ h → timePeriodOfHour h = str "night") ∧
    processCaptionTemplate 12600 (str "October 12, 2025") (str "09:00 AM") (str "Sunday")
        (str "\x7baccount_name\x7d says hi at \x7btime_period\x7d") (str "") (str "acme") =
      str "acme says hi at morning" := by
  refine ⟨rfl, ?_, ?_, ?_, ?_, by decide⟩
  · intro h h1 h2
    unfold timePeriodOfHour
    rw [if_pos ⟨h1, h2⟩]
  · intro h h1 h2
    unfold timePeriodOfHour
    rw [if_neg (by omega), if_pos ⟨h1, h2⟩]
  · intro h h1 h2
    unfold timePeriodOfHour
    rw [if_neg (by omega), if_neg (by omega), if_pos ⟨h1, h2⟩]
  · intro h hd
    unfold timePeriodOfHour
    rw [if_neg (by omega), if_neg (by omega), if_neg (by omega)]

theorem C8_caption_amended_witness :
    timePeriodOfHour 9 = str "morning" ∧ timePeriodOfHour 13 = str "afternoon" ∧
    timePeriodOfHour 18 = str "evening" ∧ timePeriodOfHour 23 = str "night" :=
  ⟨(C8_caption_amended 0 [] [] [] [] [] []).2.1 9 (by decide) (by decide),
   (C8_caption_amended 0 [] [] [] [] [] []).2.2.1 13 (by decide) (by decide),
   (C8_caption_amended 0 [] [] [] [] [] []).2.2.2.1 18 (by decide) (by decide),
   (C8_caption_amended 0 [] [] [] [] [] []).2.2.2.2.1 23 (Or.inr (by decide))⟩

/-! ## C3: simulation accounts -/

lemma natToStrAux_digits :
    ∀ fuel n, n < fuel →
      natToStrAux fuel n ≠ [] ∧ (natToStrAux fuel n).all Char.isDigit = true := by
  intro fuel
  induction fuel with
  | zero => intro n h; omega
  | succ f ih =>
    intro n h
    unfold natToStrAux
    by_cases h10 : n < 10
    · rw [if_pos h10]
      refine ⟨by simp, ?_⟩
      simp only [List.all_cons, List.all_nil, Bool.and_true]
      interval_cases n <;> decide
    · rw [if_neg h10]
      have hrec := ih (n / 10) (by omega)
      refine ⟨by simp, ?_⟩
      rw [List.all_append]
      rw [hrec.2]
      simp only [Bool.true_and, List.all_cons, List.all_nil, Bool.and_true]
      have hm : n % 10 < 10 := Nat.mod_lt _ (by norm_num)
      set m := n % 10 with hmdef
      interval_cases m <;> decide

lemma natToStr_isDigits (n : Nat) : isDigits (natToStr n) = true := by
  have h := natToStrAux_digits (n + 1) n (by omega)
  unfold isDigits natToStr
  rw [h.2]
  simp [List.isEmpty_iff, h.1]

lemma matchesTestKindPattern_mk (kind aid : Str) (n : Nat) :
    matchesTestKindPattern kind aid
      (str "test_" ++ kind ++ str "_" ++ aid ++ str "_" ++ natToStr n) = true := by
  unfold matchesTestKindPattern
  dsimp only
  have h1 : (str "test_" ++ kind ++ str "_" ++ aid ++ str "_").isPrefixOf
      (str "test_" ++ kind ++ str "_" ++ aid ++ str "_" ++ natToStr n) = true := by
    rw [List.isPrefixOf_iff_prefix]
    exact List.prefix_append _ _
  have h2 : (str "test_" ++ kind ++ str "_" ++ aid ++ str "_" ++ natToStr n).drop
      (str "test_" ++ kind ++ str "_" ++ aid ++ str "_").length = natToStr n :=
    List.drop_left _ _
  rw [h1, h2, natToStr_isDigits]
  rfl

/-- A network oracle that refuses everything; test-account paths never
consult it. -/
def demoNet : Net where
  head := fun _ => Except.ok 200
  graph := fun _ => Resp.httpErr (str "offline")

/-- C3 counterexample: on a simulation account the feed publish returns the
id `test_post_123_5` (for account id `123` at epoch second 5), which does
not match the claimed pattern `test_<accountId>_<digits>`. -/
theorem C3_test_pattern_cex :
    (postToInstagram demoNet (str "123") (str "https://x/y.jpg") (str "cap")
        (some (str "test")) none 5).1.id = some (str "test_post_123_5") ∧
    matchesTestPattern (str "123") (str "test_post_123_5") = false := by
  decide

/-- C3 (amended): for every account whose access token starts with `test`,
each publish operation returns a synthetic success immediately, with an
empty request trace (hence before any URL-reachability check and with no
outbound network call), and the returned id matches the pattern
`test_<kind>_<accountId>_<digits>` with kind `post`, `story` or `carousel`
respectively. -/
theorem C3_test_account_amended (net : Net) (accountId imageUrl caption : Str)
    (elements : Option StoryElements) (imageUrls : List Str)
    (tok : Str) (defaultToken : Option Str) (now : Nat)
    (ht : (str "test").isPrefixOf tok = true) :
    postToInstagram net accountId imageUrl caption (some tok) defaultToken now =
      ({ id := some (str "test_post_" ++ accountId ++ str "_" ++ natToStr now),
         error := none,
         message := some (str "Test post created successfully (no actual Instagram API call)") },
       []) ∧
    postStory net accountId imageUrl elements (some tok) defaultToken now =
      ({ id := some (str "test_story_" ++ accountId ++ str "_" ++ natToStr now),
         error := none, message := some (str "Test story created successfully") }, []) ∧
    postCarousel net accountId imageUrls caption (some tok) defaultToken now =
      ({ id := some (str "test_carousel_" ++ accountId ++ str "_" ++ natToStr now),
         error := none, message := some (str "Test carousel created successfully") }, []) ∧
    matchesTestKindPattern (str "post") accountId
      (str "test_post_" ++ accountId ++ str "_" ++ natToStr now) = true ∧
    matchesTestKindPattern (str "story") accountId
      (str "test_story_" ++ accountId ++ str "_" ++ natToStr now) = true ∧
    matchesTestKindPattern (str "carousel") accountId
      (str "test_carousel_" ++ accountId ++ str "_" ++ natToStr now) = true := by
  have hne : tok ≠ [] := by
    intro hnil
    rw [hnil] at ht
    exact absurd ht (by decide)
  have htok : isTestToken (some tok) = true := by
    unfold isTestToken
    cases tok with
    | nil => exact absurd rfl hne
    | cons c t => simp [ht, List.isEmpty]
  have hres : resolveToken (some tok) defaultToken = some tok := by
    unfold resolveToken
    cases tok with
    | nil => exact absurd rfl hne
    | cons c t => simp [List.isEmpty]
  refine ⟨?_, ?_, ?_, ?_, ?_, ?_⟩
  · unfold postToInstagram
    rw [htok]
    rfl
  · unfold postStory
    rw [hres]
    dsimp only
    rw [htok]
    rfl
  · unfold postCarousel
    rw [hres]
    dsimp only
    rw [htok]
    rfl
  · have h := matchesTestKindPattern_mk (str "post") accountId now
    have he : (str "test_" ++ str "post" ++ str "_" : Str) = str "test_post_" := by decide
    rwa [he] at h
  · have h := matchesTestKindPattern_mk (str "story") accountId now
    have he : (str "test_" ++ str "story" ++ str "_" : Str) = str "test_story_" := by decide
    rwa [he] at h
  · have h := matchesTestKindPattern_mk (str "carousel") accountId now
    have he : (str "test_" ++ str "carousel" ++ str "_" : Str) = str "test_carousel_" := by decide
    rwa [he] at h

theorem C3_test_account_amended_witness :
    postToInstagram demoNet (str "123") (str "https://x/y.jpg") (str "cap")
        (some (str "test")) none 5 =
      ({ id := some (str "test_post_" ++ str "123" ++ str "_" ++ natToStr 5),
         error := none,
         message := some (str "Test post created successfully (no actual Instagram API call)") },
       []) :=
  (C3_test_account_amended demoNet (str "123") (str "https://x/y.jpg") (str "cap")
    none [] (str "test") none 5 (by decide)).1

/-! ## C6: the carousel protocol -/

lemma createChildren_all_ok (net : Net) (accountId : Str) :
    ∀ (urls : List Str) (i : Nat), urls.all (childOk net accountId) = true →
      createChildren net accountId urls i =
        (.ok (urls.map (childIdOf net accountId)), urls.map (Req.createChild accountId)) := by
  intro urls
  induction urls with
  | nil => intro i _; rfl
  | cons u rest ih =>
    intro i hall
    rw [List.all_cons, Bool.and_eq_true] at hall
    obtain ⟨h1, h2⟩ := hall
    cases hg : net.graph (Req.createChild accountId u) with
    | ok cid =>
      have hcid : childIdOf net accountId u = cid := by
        unfold childIdOf
        rw [hg]
      unfold createChildren
      rw [hg]
      dsimp only
      rw [ih (i + 1) h2]
      simp only [Except.map, List.map_cons, hcid]
    | noId m =>
      unfold childOk at h1
      rw [hg] at h1
      simp at h1
    | httpErr m =>
      unfold childOk at h1
      rw [hg] at h1
      simp at h1
    | netErr m =>
      unfold childOk at h1
      rw [hg] at h1
      simp at h1

lemma createChildren_first_fail (net : Net) (accountId : Str) :
    ∀ (pre : List Str) (u : Str) (post : List Str) (i : Nat),
      pre.all (childOk net accountId) = true → childOk net accountId u = false →
      (createChildren net accountId (pre ++ u :: post) i).2 =
        (pre ++ [u]).map (Req.createChild accountId) ∧
      ∃ m, (createChildren net accountId (pre ++ u :: post) i).1 = .error m := by
  intro pre
  induction pre with
  | nil =>
    intro u post i _ hu
    unfold childOk at hu
    rw [List.nil_append]
    cases hg : net.graph (Req.createChild accountId u) with
    | ok cid =>
      rw [hg] at hu
      simp at hu
    | noId m =>
      unfold createChildren
      rw [hg]
      exact ⟨rfl, _, rfl⟩
    | httpErr m =>
      unfold createChildren
      rw [hg]
      exact ⟨rfl, _, rfl⟩
    | netErr m =>
      unfold createChildren
      rw [hg]
      exact ⟨rfl, _, rfl⟩
  | cons v pre ih =>
    intro u post i hall hu
    rw [List.all_cons, Bool.and_eq_true] at hall
    obtain ⟨h1, h2⟩ := hall
    rw [List.cons_append]
    cases hg : net.graph (Req.createChild accountId v) with
    | ok cid =>
      have hrec := ih u post (i + 1) h2 hu
      obtain ⟨m, hm⟩ := hrec.2
      unfold createChildren
      rw [hg]
      dsimp only
      constructor
      · rw [hrec.1, List.cons_append, List.map_cons]
      · refine ⟨m, ?_⟩
        rw [hm]
        rfl
    | noId m =>
      unfold childOk at h1
      rw [hg] at h1
      simp at h1
    | httpErr m =>
      unfold childOk at h1
      rw [hg] at h1
      simp at h1
    | netErr m =>
      unfold childOk at h1
      rw [hg] at h1
      simp at h1

/-- C6: on a non-simulation account, a carousel publish with N image URLs
makes exactly N child-container calls, in input order, before the single
parent-container call, whose `children` field is the comma-join of the
returned child ids in input order (any requests after the parent call are
neither child nor parent calls); and the first child-container failure
aborts the operation with an error result, with no parent call issued and
no further child calls. -/
theorem C6_carousel_protocol (net : Net) (accountId : Str) (imageUrls : List Str)
    (caption : Str) (accessToken defaultToken : Option Str) (now : Nat)
    (ht : isTestToken (resolveToken accessToken defaultToken) = false) :
    (imageUrls.all (childOk net accountId) = true →
      ∃ rest,
        (postCarousel net accountId imageUrls caption accessToken defaultToken now).2 =
          imageUrls.map (Req.createChild accountId) ++
            Req.createParent accountId
              (List.intercalate (str ",") (imageUrls.map (childIdOf net accountId)))
              caption :: rest ∧
        ∀ r ∈ rest, isChildReq r = false ∧ isParentReq r = false) ∧
    (∀ pre u post, imageUrls = pre ++ u :: post →
      pre.all (childOk net accountId) = true → childOk net accountId u = false →
      (postCarousel net accountId imageUrls caption accessToken defaultToken now).2 =
        (pre ++ [u]).map (Req.createChild accountId) ∧
      ∃ m, (postCarousel net accountId imageUrls caption accessToken defaultToken now).1.error
          = some m ∧
        (postCarousel net accountId imageUrls caption accessToken defaultToken now).1.id
          = none) := by
  constructor
  · intro hall
    unfold postCarousel
    simp only [ht, Bool.false_eq_true, if_false]
    rw [createChildren_all_ok net accountId imageUrls 0 hall]
    dsimp only
    cases hp : net.graph (Req.createParent accountId
        (List.intercalate (str ",") (imageUrls.map (childIdOf net accountId))) caption) with
    | ok cid =>
      refine ⟨(publishMedia net accountId cid).2, rfl, ?_⟩
      intro r hr
      unfold publishMedia at hr
      simp only [List.mem_singleton] at hr
      subst hr
      exact ⟨rfl, rfl⟩
    | noId m => exact ⟨[], rfl, by simp⟩
    | httpErr m => exact ⟨[], rfl, by simp⟩
    | netErr m => exact ⟨[], rfl, by simp⟩
  · intro pre u post hsplit hpre hu
    subst hsplit
    unfold postCarousel
    simp only [ht, Bool.false_eq_true, if_false]
    have hfail := createChildren_first_fail net accountId pre u post 0 hpre hu
    obtain ⟨m, hm⟩ := hfail.2
    rw [hm]
    exact ⟨hfail.1, m, rfl, rfl⟩

/-- A network oracle that answers every request successfully, returning the
image URL prefixed by `c-` for child containers. -/
def demoNetOk : Net where
  head := fun _ => Except.ok 200
  graph := fun r =>
    match r with
    | Req.createChild _ u => Resp.ok (str "c-" ++ u)
    | _ => Resp.ok (str "99")

theorem C6_carousel_protocol_witness :
    ∃ rest,
      (postCarousel demoNetOk (str "1784") [str "a", str "b", str "c"] (str "cap")
          (some (str "EAAtok")) none 0).2 =
        [str "a", str "b", str "c"].map (Req.createChild (str "1784")) ++
          Req.createParent (str "1784")
            (List.intercalate (str ",")
              ([str "a", str "b", str "c"].map (childIdOf demoNetOk (str "1784"))))
            (str "cap") :: rest ∧
      ∀ r ∈ rest, isChildReq r = false ∧ isParentReq r = false :=
  (C6_carousel_protocol demoNetOk (str "1784") [str "a", str "b", str "c"] (str "cap")
    (some (str "EAAtok")) none 0 (by decide)).1 (by decide)

/-! ## C7: URL validation before container creation -/

lemma createChildren_trace_cons (net : Net) (accountId u : Str) (rest : List Str) (i : Nat) :
    ∃ t, (createChildren net accountId (u :: rest) i).2 = Req.createChild accountId u :: t := by
  unfold createChildren
  cases hg : net.graph (Req.createChild accountId u) with
  | ok cid => exact ⟨_, rfl⟩
  | noId m => exact ⟨[], rfl⟩
  | httpErr m => exact ⟨[], rfl⟩
  | netErr m => exact ⟨[], rfl⟩

/-- C7 (amended): only the feed container path validates the image URL: a
non-HTTP(S) URL fails fast with a descriptive error and no request at all,
and a localhost or 127.0.0.1 address always yields an error result without
any Graph API request being issued.  The story and carousel
container-creation paths perform no URL validation: on a non-simulation
account their very first outbound request is the Graph container call,
whatever the URL. -/
theorem C7_url_validation_amended (net : Net) (accountId imageUrl caption : Str)
    (elements : Option StoryElements) (moreUrls : List Str)
    (accessToken defaultToken : Option Str) (now : Nat)
    (ht : isTestToken (resolveToken accessToken defaultToken) = false) :
    ((str "http://").isPrefixOf imageUrl = false →
      (str "https://").isPrefixOf imageUrl = false → imageUrl ≠ [] →
      uploadMedia net accountId imageUrl caption accessToken defaultToken =
        (mkErr (str "Image URL must be a valid HTTP/HTTPS URL accessible by Instagram"), [])) ∧
    (strContains imageUrl (str "localhost") = true ∨
        strContains imageUrl (str "127.0.0.1") = true →
      (uploadMedia net accountId imageUrl caption accessToken defaultToken).1.error.isSome
          = true ∧
      ∀ r ∈ (uploadMedia net accountId imageUrl caption accessToken defaultToken).2,
        isGraphReq r = false) ∧
    ((postStory net accountId imageUrl elements accessToken defaultToken now).2.head? =
      some (Req.createStory accountId imageUrl elements)) ∧
    ((postCarousel net accountId (imageUrl :: moreUrls) caption accessToken defaultToken
        now).2.head? = some (Req.createChild accountId imageUrl)) := by
  refine ⟨?_, ?_, ?_, ?_⟩
  · intro h1 h2 hne
    have hni : imageUrl.isEmpty = false := by
      cases imageUrl with
      | nil => exact absurd rfl hne
      | cons c t => rfl
    unfold uploadMedia
    dsimp only
    simp [hni, h1, h2]
  · intro hloc
    unfold uploadMedia
    dsimp only
    split
    next hemp => exact ⟨rfl, by simp⟩
    next hemp =>
      split
      next hhttp => exact ⟨rfl, by simp⟩
      next hhttp =>
        split
        next hl =>
          split <;>
            · refine ⟨rfl, ?_⟩
              intro r hr
              simp only [List.mem_singleton] at hr
              subst hr
              rfl
        next hl =>
          exfalso
          rcases hloc with h | h
          · rw [h] at hl
            simp at hl
          · rw [h] at hl
            simp at hl
  · unfold postStory
    dsimp only
    simp only [ht, Bool.false_eq_true, if_false]
    split <;> rfl
  · obtain ⟨t, htr⟩ := createChildren_trace_cons net accountId imageUrl moreUrls 0
    unfold postCarousel
    dsimp only
    simp only [ht, Bool.false_eq_true, if_false]
    split
    next m hm => rw [htr]; rfl
    next ids hm =>
      split <;> (rw [htr] ; rfl)

theorem C7_url_validation_amended_witness :
    (uploadMedia demoNet (str "1") (str "http://localhost:5555/a.jpg") (str "c")
        (some (str "EAAx")) none).1.error.isSome = true ∧
    ∀ r ∈ (uploadMedia demoNet (str "1") (str "http://localhost:5555/a.jpg") (str "c")
        (some (str "EAAx")) none).2, isGraphReq r = false :=
  (C7_url_validation_amended demoNet (str "1") (str "http://localhost:5555/a.jpg") (str "c")
    none [] (some (str "EAAx")) none 0 (by decide)).2.1 (Or.inl (by decide))

/-- C7 counterexample: on a non-simulation account, a story publish with a
localhost image URL does not fail fast: the story container request is
issued to the Graph API (it is the entire trace), so no validation happened
before a Graph API request. -/
theorem C7_story_skips_validation_cex :
    (postStory demoNet (str "1784") (str "http://localhost:5555/uploads/a.jpg") none
        (some (str "EAAliveTok")) none 9).2 =
      [Req.createStory (str "1784") (str "http://localhost:5555/uploads/a.jpg") none] ∧
    isGraphReq (Req.createStory (str "1784") (str "http://localhost:5555/uploads/a.jpg") none)
      = true := by
  decide

end App
